import Mathlib

/-!
Verification of the Kalman-type measurement updaters
(`KalmanUpdater`, `ExtendedKalmanUpdater`) of `stonesoup/updater/kalman.py`.

The embedding works over exact rational arithmetic: state vectors and
covariances are Mathlib matrices over `ℚ`.  Python's runtime failures are
made explicit with `Except PyError`: attribute access on `None` (which is
how the code fails when no measurement model is resolvable) raises
`AttributeError`, and `np.linalg.inv` on a singular matrix raises numpy's
singular-matrix `LinAlgError`.
-/

/-- Shorthand for a rational `r × c` matrix. -/
abbrev Mat (r c : ℕ) : Type := Matrix (Fin r) (Fin c) ℚ

/-- The runtime errors the updater code can surface.
`attributeError` models Python's `AttributeError` (attribute access on
`None`, e.g. `None.function(...)` or `None.matrix()`);
`singularMatrix` models `numpy.linalg.LinAlgError("Singular matrix")`
raised by `np.linalg.inv`; `configurationError` is the error class the
specification names for a missing model — nothing in the source produces
it, it is present so that the spec's claim about it can be stated. -/
inductive PyError : Type where
  | attributeError : PyError
  | singularMatrix : PyError
  | configurationError : PyError
deriving DecidableEq, Repr

/-- A measurement model, the external collaborator consumed through duck
typing: `function(state, noise)`, `covar()`, and optionally `matrix()`
(linear models) and `jacobian(state)` (differentiable models).  A missing
optional method models the absence of the attribute (`hasattr` is false,
and calling it raises `AttributeError`). -/
structure MeasurementModel (n m : ℕ) : Type where
  matrix : Option (Mat m n)
  jacobian : Option (Mat n 1 → Mat m n)
  function : Mat n 1 → Mat m 1 → Mat m 1
  covar : Mat m m

/-- A Gaussian state (prediction): mean vector, covariance, timestamp. -/
structure GaussianState (n : ℕ) : Type where
  state_vector : Mat n 1
  covar : Mat n n
  timestamp : ℤ

/-- A measurement: observation vector, timestamp, and the optional
measurement model attached to it. -/
structure Measurement (n m : ℕ) : Type where
  state_vector : Mat m 1
  timestamp : ℤ
  measurement_model : Option (MeasurementModel n m)

/-- A hypothesis pairing a predicted state with an associated measurement. -/
structure Hypothesis (n m : ℕ) : Type where
  prediction : GaussianState n
  measurement : Measurement n m

/-- The type `GaussianMeasurementPrediction(pred_meas, innov_cov,
timestamp, cross_covar)`. -/
structure GaussianMeasurementPrediction (n m : ℕ) : Type where
  state_vector : Mat m 1
  covar : Mat m m
  timestamp : ℤ
  cross_covar : Mat n m

/-- The type `GaussianStateUpdate(mean, covar, hypothesis, timestamp)`: the
posterior state, carrying a back-reference to the hypothesis. -/
structure GaussianStateUpdate (n m : ℕ) : Type where
  state_vector : Mat n 1
  covar : Mat n n
  hypothesis : Hypothesis n m
  timestamp : ℤ

/-- The explicit inverse `det⁻¹ • adjugate`, used so that the embedding
stays computable (Mathlib's `A⁻¹` goes through `Ring.inverse`). -/
def invMat {m : ℕ} (A : Mat m m) : Mat m m :=
  (A.det)⁻¹ • A.adjugate

/-- Model of `np.linalg.inv`: raises the singular-matrix `LinAlgError` when the
matrix is singular, otherwise returns the inverse. -/
def npLinalgInv {m : ℕ} (A : Mat m m) : Except PyError (Mat m m) :=
  if A.det = 0 then .error .singularMatrix else .ok (invMat A)

/-- The model-resolution idiom `if measurement_model is None:
measurement_model = self.measurement_model` — the given model if present,
else the updater's configured default (which may itself be `None`). -/
def resolveModel {n m : ℕ} (self_model given_model : Option (MeasurementModel n m)) :
    Option (MeasurementModel n m) :=
  match given_model with
  | none => self_model
  | some mdl => some mdl

/-- Shared body of `KalmanUpdater.predict_measurement`, inherited
unchanged by `ExtendedKalmanUpdater`; `mmatrix` is the virtually
dispatched `measurement_matrix` method.  Faithful to the source order:
the model is resolved (failing with `AttributeError` on
`None.function(...)` if both are absent), the predicted measurement is a
noiseless forward evaluation, then `H` is obtained from `mmatrix`, and
`S = H·P·Hᵀ + R`, cross-covariance `P·Hᵀ`. -/
def predictMeasurementBody {n m : ℕ}
    (self_model : Option (MeasurementModel n m))
    (mmatrix : GaussianState n → Option (MeasurementModel n m) → Except PyError (Mat m n))
    (predicted_state : GaussianState n)
    (measurement_model : Option (MeasurementModel n m)) :
    Except PyError (GaussianMeasurementPrediction n m) :=
  match resolveModel self_model measurement_model with
  | none => .error .attributeError
  | some mdl =>
    let pred_meas := mdl.function predicted_state.state_vector 0
    match mmatrix predicted_state (some mdl) with
    | .error e => .error e
    | .ok hh =>
      let innov_cov := hh * predicted_state.covar * hh.transpose + mdl.covar
      let meas_cross_cov := predicted_state.covar * hh.transpose
      .ok ⟨pred_meas, innov_cov, predicted_state.timestamp, meas_cross_cov⟩

/-- Shared body of `KalmanUpdater.update`, inherited unchanged by
`ExtendedKalmanUpdater`; `predictMeas` is the virtually dispatched
`predict_measurement` method.  Resolves the model from the hypothesis's
measurement, else the updater default, obtains the measurement
prediction, then `K = Pxz·S⁻¹`, posterior mean `x + K·(z − ẑ)`, posterior
covariance `P − K·S·Kᵀ`, returning a `GaussianStateUpdate` stamped with
the measurement's timestamp and referencing the hypothesis. -/
def updateBody {n m : ℕ}
    (self_model : Option (MeasurementModel n m))
    (predictMeas : GaussianState n → Option (MeasurementModel n m) →
      Except PyError (GaussianMeasurementPrediction n m))
    (hypothesis : Hypothesis n m) :
    Except PyError (GaussianStateUpdate n m) :=
  let predicted_state := hypothesis.prediction
  let measurement_model :=
    resolveModel self_model hypothesis.measurement.measurement_model
  match predictMeas predicted_state measurement_model with
  | .error e => .error e
  | .ok gmp =>
    let pred_meas := gmp.state_vector
    let innov_cov := gmp.covar
    let m_cross_cov := gmp.cross_covar
    match npLinalgInv innov_cov with
    | .error e => .error e
    | .ok innov_inv =>
      let kalman_gain := m_cross_cov * innov_inv
      let posterior_mean := predicted_state.state_vector +
        kalman_gain * (hypothesis.measurement.state_vector - pred_meas)
      let posterior_covariance := predicted_state.covar -
        kalman_gain * innov_cov * kalman_gain.transpose
      .ok ⟨posterior_mean, posterior_covariance, hypothesis,
        hypothesis.measurement.timestamp⟩

/-- The class `KalmanUpdater`: configuration is the optional default linear-Gaussian
measurement model. -/
structure KalmanUpdater (n m : ℕ) : Type where
  measurement_model : Option (MeasurementModel n m)

namespace KalmanUpdater

/-- Method `KalmanUpdater.measurement_matrix(self, predicted_state=None,
measurement_model=None)`: returns `self.measurement_model.matrix()` —
both arguments are ignored by the source.  Fails with `AttributeError`
when the updater has no configured model (`None.matrix()`) or the
configured object has no `matrix` attribute. -/
def measurement_matrix {n m : ℕ} (self : KalmanUpdater n m)
    (predicted_state : Option (GaussianState n))
    (measurement_model : Option (MeasurementModel n m)) :
    Except PyError (Mat m n) :=
  match self.measurement_model with
  | none => .error .attributeError
  | some mdl =>
    match mdl.matrix with
    | none => .error .attributeError
    | some H => .ok H

/-- Method `KalmanUpdater.predict_measurement`. -/
def predict_measurement {n m : ℕ} (self : KalmanUpdater n m)
    (predicted_state : GaussianState n)
    (measurement_model : Option (MeasurementModel n m)) :
    Except PyError (GaussianMeasurementPrediction n m) :=
  predictMeasurementBody self.measurement_model
    (fun s mdl => self.measurement_matrix (some s) mdl)
    predicted_state measurement_model

/-- Method `KalmanUpdater.update`. -/
def update {n m : ℕ} (self : KalmanUpdater n m) (hypothesis : Hypothesis n m) :
    Except PyError (GaussianStateUpdate n m) :=
  updateBody self.measurement_model self.predict_measurement hypothesis

end KalmanUpdater

/-- The class `ExtendedKalmanUpdater`: same configuration; only
`measurement_matrix` is overridden. -/
structure ExtendedKalmanUpdater (n m : ℕ) : Type where
  measurement_model : Option (MeasurementModel n m)

namespace ExtendedKalmanUpdater

/-- Method `ExtendedKalmanUpdater.measurement_matrix(self, predicted_state,
measurement_model=None)`: resolves the model (argument else updater
default), then uses `matrix()` when the attribute exists, else
`jacobian(predicted_state.state_vector)`.  With no model anywhere,
`hasattr(None, 'matrix')` is false and `None.jacobian(...)` raises
`AttributeError`. -/
def measurement_matrix {n m : ℕ} (self : ExtendedKalmanUpdater n m)
    (predicted_state : GaussianState n)
    (measurement_model : Option (MeasurementModel n m)) :
    Except PyError (Mat m n) :=
  match resolveModel self.measurement_model measurement_model with
  | none => .error .attributeError
  | some mdl =>
    match mdl.matrix with
    | some H => .ok H
    | none =>
      match mdl.jacobian with
      | none => .error .attributeError
      | some jac => .ok (jac predicted_state.state_vector)

/-- Method `ExtendedKalmanUpdater.predict_measurement`: inherited body from
`KalmanUpdater`, dispatching to the overridden `measurement_matrix`. -/
def predict_measurement {n m : ℕ} (self : ExtendedKalmanUpdater n m)
    (predicted_state : GaussianState n)
    (measurement_model : Option (MeasurementModel n m)) :
    Except PyError (GaussianMeasurementPrediction n m) :=
  predictMeasurementBody self.measurement_model
    (fun s mdl => self.measurement_matrix s mdl)
    predicted_state measurement_model

/-- Method `ExtendedKalmanUpdater.update`: inherited body from `KalmanUpdater`,
dispatching to the overridden `predict_measurement`. -/
def update {n m : ℕ} (self : ExtendedKalmanUpdater n m) (hypothesis : Hypothesis n m) :
    Except PyError (GaussianStateUpdate n m) :=
  updateBody self.measurement_model self.predict_measurement hypothesis

end ExtendedKalmanUpdater

/-- Modelled from the spec: the external `LinearGaussian` measurement
model (defined outside this core, in `stonesoup.models`), whose
observation function is `function(x, noise) = H·x + noise`, with fixed
observation matrix `H` and noise covariance `R`. -/
def LinearGaussian {n m : ℕ} (H : Mat m n) (R : Mat m m) : MeasurementModel n m :=
  { matrix := some H
    jacobian := some (fun _ => H)
    function := fun x noise => H * x + noise
    covar := R }

/-- The explicit inverse agrees with Mathlib's nonsingular inverse. -/
theorem invMat_eq_inv {m : ℕ} (A : Mat m m) : invMat A = A⁻¹ := by
  rw [Matrix.inv_def, Ring.inverse_eq_inv]
  rfl

/-- Positive definiteness of a rational matrix, stated directly over the
quadratic form. -/
def PosDefQ {m : ℕ} (S : Mat m m) : Prop :=
  ∀ x : Fin m → ℚ, x ≠ 0 → 0 < Matrix.dotProduct x (S.mulVec x)

/-- A positive-definite quadratic form is nonnegative everywhere. -/
theorem PosDefQ.nonneg {m : ℕ} {S : Mat m m} (hS : PosDefQ S)
    (x : Fin m → ℚ) : 0 ≤ Matrix.dotProduct x (S.mulVec x) := by
  by_cases hx : x = 0
  · subst hx
    simp
  · exact le_of_lt (hS x hx)

/-- Each diagonal entry of `K·S·Kᵀ` is the quadratic form of `S` at the
corresponding row of `K`. -/
theorem diag_mul_mul_transpose {n m : ℕ} (K : Mat n m) (S : Mat m m) (i : Fin n) :
    (K * S * K.transpose) i i = Matrix.dotProduct (fun j => K i j) (S.mulVec (fun j => K i j)) := by
  simp only [Matrix.mul_apply, Matrix.transpose_apply, Matrix.dotProduct,
    Matrix.mulVec, Finset.sum_mul, Finset.mul_sum]
  rw [Finset.sum_comm]
  refine Finset.sum_congr rfl fun j _ => Finset.sum_congr rfl fun l _ => by ring

/-- The trace of `K·S·Kᵀ` is nonnegative when `S` is positive definite. -/
theorem trace_mul_mul_transpose_nonneg {n m : ℕ} (K : Mat n m) (S : Mat m m)
    (hS : PosDefQ S) : 0 ≤ (K * S * K.transpose).trace := by
  rw [Matrix.trace]
  refine Finset.sum_nonneg fun i _ => ?_
  rw [Matrix.diag_apply, diag_mul_mul_transpose]
  exact hS.nonneg _

/-!  Concrete instances used by witnesses and counterexamples.  The
measurement models are arbitrary duck-typed collaborators; `mdlA` is the
spec's exact numeric scenario model (`H = [[1]]`, `R = [[1]]`). -/

/-- Linear model with `H = [[1]]`, `R = [[1]]`. -/
def mdlA : MeasurementModel 1 1 := LinearGaussian !![1] !![1]

/-- Linear model with `H = [[2]]`, `R = [[1]]`. -/
def mdlB : MeasurementModel 1 1 := LinearGaussian !![2] !![1]

/-- Linear model with `H = [[3]]`, `R = [[1]]`. -/
def mdlB3 : MeasurementModel 1 1 := LinearGaussian !![3] !![1]

/-- Linear model with `H = [[0]]`, `R = [[0]]`, whose innovation
covariance is singular. -/
def mdlZero : MeasurementModel 1 1 := LinearGaussian !![0] !![0]

/-- Predicted state: mean `[0]`, covariance `[[1]]`, timestamp 5. -/
def stateP : GaussianState 1 := ⟨!![0], !![1], 5⟩

/-- Measurement `z = [2]` at timestamp 7 carrying no model. -/
def measNoModel : Measurement 1 1 := ⟨!![2], 7, none⟩

/-- Measurement `z = [2]` at timestamp 7 carrying model `mdlA`. -/
def measWithA : Measurement 1 1 := ⟨!![2], 7, some mdlA⟩

/-- Hypothesis pairing `stateP` with the model-free measurement. -/
def hypNoModel : Hypothesis 1 1 := ⟨stateP, measNoModel⟩

/-- Hypothesis pairing `stateP` with the measurement carrying `mdlA`. -/
def hypWithA : Hypothesis 1 1 := ⟨stateP, measWithA⟩

/-- Kalman updater whose configured default model is `mdlA`. -/
def kupdA : KalmanUpdater 1 1 := ⟨some mdlA⟩

/-- Kalman updater whose configured default model is `mdlB`. -/
def kupdB : KalmanUpdater 1 1 := ⟨some mdlB⟩

/-- Kalman updater whose configured default model is `mdlB3`. -/
def kupdB3 : KalmanUpdater 1 1 := ⟨some mdlB3⟩

/-- Kalman updater whose configured default model is `mdlZero`. -/
def kupdZero : KalmanUpdater 1 1 := ⟨some mdlZero⟩

/-- Kalman updater with no configured default model. -/
def kupdNone : KalmanUpdater 1 1 := ⟨none⟩

/-- Extended Kalman updater whose configured default model is `mdlA`. -/
def eupdA : ExtendedKalmanUpdater 1 1 := ⟨some mdlA⟩

/-- Extended Kalman updater whose configured default model is `mdlB`. -/
def eupdB : ExtendedKalmanUpdater 1 1 := ⟨some mdlB⟩

/-- C8: on the spec's exact scenario — 1-D state, predicted mean `[0]`,
predicted covariance `[[1]]`, linear model `H = [[1]]`, `R = [[1]]`,
measurement `z = [2]` — the measurement prediction has innovation
covariance `[[2]]`, the Kalman gain `Pxz·S⁻¹` is `[[1/2]]`, and `update`
returns posterior mean `[1]` and posterior covariance `[[1/2]]`. -/
theorem C8_exact_numeric_scenario :
    kupdA.predict_measurement stateP none = .ok ⟨!![0], !![2], 5, !![1]⟩ ∧
    (!![1] * invMat !![2] : Mat 1 1) = !![1/2] ∧
    kupdA.update hypNoModel = .ok ⟨!![1], !![1/2], hypNoModel, 7⟩ := by
  refine ⟨?_, ?_, ?_⟩
  · simp [KalmanUpdater.predict_measurement, KalmanUpdater.measurement_matrix,
      predictMeasurementBody, resolveModel, kupdA, mdlA, stateP, LinearGaussian,
      Matrix.vecHead, Matrix.vecMul, Matrix.dotProduct, Fin.sum_univ_one,
      Matrix.mul_apply, Matrix.smul_apply, Matrix.one_apply, Matrix.of_apply,
      Matrix.cons_val_zero]
    refine ⟨?_, ?_⟩ <;> funext i j <;> fin_cases i <;> fin_cases j <;>
      simp [Matrix.cons_val_zero] <;> norm_num
  · funext i j <;> fin_cases i <;> fin_cases j <;>
      simp [invMat, Matrix.det_fin_one, Matrix.adjugate_fin_one,
        Matrix.mul_apply, Matrix.smul_apply, Matrix.one_apply, Fin.sum_univ_one,
        Matrix.of_apply, Matrix.cons_val_zero] <;> norm_num
  · simp [KalmanUpdater.update, KalmanUpdater.predict_measurement,
      KalmanUpdater.measurement_matrix, updateBody, predictMeasurementBody,
      resolveModel, npLinalgInv, invMat, kupdA, mdlA, hypNoModel, stateP,
      measNoModel, LinearGaussian, Matrix.det_fin_one, Matrix.adjugate_fin_one,
      Matrix.vecHead, Matrix.vecMul, Matrix.dotProduct, Fin.sum_univ_one,
      Matrix.mul_apply, Matrix.smul_apply, Matrix.one_apply, Matrix.of_apply,
      Matrix.cons_val_zero]
    norm_num

/-- C2 counterexample: with no model on the measurement and none
configured on the updater, `update` fails with `AttributeError` (Python
attribute access `None.function` / `None.matrix`), not with the
`ConfigurationError` the claim names — no such error class appears in
the source. -/
theorem C2_error_is_attribute_not_configuration :
    kupdNone.update hypNoModel = .error .attributeError ∧
    kupdNone.update hypNoModel ≠ .error .configurationError := by
  have h : kupdNone.update hypNoModel = .error .attributeError := by
    simp [KalmanUpdater.update, KalmanUpdater.predict_measurement, updateBody,
      predictMeasurementBody, resolveModel, kupdNone, hypNoModel, measNoModel]
  refine ⟨h, ?_⟩
  rw [h]
  intro hc
  exact PyError.noConfusion (Except.error.inj hc)

/-- C2 (amended): when no measurement model is attached to the
hypothesis's measurement and the updater has no configured default,
`update` and `predict_measurement` (base and extended updaters alike)
fail with `AttributeError`; the failure is uniform in every numeric
component of the input — the error branch is taken before any matrix
expression is formed, so no linear-algebra computation contributes to
the result. -/
theorem C2_missing_model_fails_before_algebra {n m : ℕ}
    (u : KalmanUpdater n m) (e : ExtendedKalmanUpdater n m)
    (h : Hypothesis n m) (ps : GaussianState n)
    (hu : u.measurement_model = none) (he : e.measurement_model = none)
    (hm : h.measurement.measurement_model = none) :
    u.update h = .error .attributeError ∧
    u.predict_measurement ps none = .error .attributeError ∧
    e.update h = .error .attributeError ∧
    e.predict_measurement ps none = .error .attributeError := by
  refine ⟨?_, ?_, ?_, ?_⟩ <;>
    simp [KalmanUpdater.update, KalmanUpdater.predict_measurement,
      ExtendedKalmanUpdater.update, ExtendedKalmanUpdater.predict_measurement,
      updateBody, predictMeasurementBody, resolveModel, hu, he, hm]

/-- Witness for the amended C2 at a concrete input. -/
theorem C2_missing_model_witness :
    kupdNone.measurement_model = none ∧
    hypNoModel.measurement.measurement_model = none ∧
    kupdNone.update hypNoModel = .error .attributeError :=
  ⟨rfl, rfl,
    (C2_missing_model_fails_before_algebra kupdNone ⟨none⟩ hypNoModel stateP
      rfl rfl rfl).1⟩

/-- C1 (code-bug evidence): with a model attached to the hypothesis's
measurement (`mdlA`, `H = [[1]]`) AND an updater-level default
configured, the posterior of the base `KalmanUpdater` is NOT computed
entirely from the hypothesis-level model: `measurement_matrix` takes `H`
from the updater's default, so changing only the default (from
`H = [[2]]` to `H = [[3]]`) changes the posterior; and with no default
configured the call even fails although the hypothesis supplies a model,
contradicting the source's own docstring
("This need not be defined if a measurement model is provided in the
measurement"). -/
theorem C1_default_model_influences_posterior :
    kupdB.update hypWithA = .ok ⟨!![4/5], !![1/5], hypWithA, 7⟩ ∧
    kupdB3.update hypWithA = .ok ⟨!![3/5], !![1/10], hypWithA, 7⟩ ∧
    kupdB.update hypWithA ≠ kupdB3.update hypWithA ∧
    kupdNone.update hypWithA = .error .attributeError := by
  have h1 : kupdB.update hypWithA = .ok ⟨!![4/5], !![1/5], hypWithA, 7⟩ := by
    simp [KalmanUpdater.update, KalmanUpdater.predict_measurement,
      KalmanUpdater.measurement_matrix, updateBody, predictMeasurementBody,
      resolveModel, npLinalgInv, invMat, kupdB, mdlA, mdlB, hypWithA, stateP,
      measWithA, LinearGaussian, Matrix.det_fin_one, Matrix.adjugate_fin_one,
      Matrix.vecHead, Matrix.vecMul, Matrix.dotProduct, Fin.sum_univ_one,
      Matrix.mul_apply, Matrix.smul_apply, Matrix.one_apply, Matrix.of_apply,
      Matrix.cons_val_zero]
    norm_num
  have h2 : kupdB3.update hypWithA = .ok ⟨!![3/5], !![1/10], hypWithA, 7⟩ := by
    simp [KalmanUpdater.update, KalmanUpdater.predict_measurement,
      KalmanUpdater.measurement_matrix, updateBody, predictMeasurementBody,
      resolveModel, npLinalgInv, invMat, kupdB3, mdlA, mdlB3, hypWithA, stateP,
      measWithA, LinearGaussian, Matrix.det_fin_one, Matrix.adjugate_fin_one,
      Matrix.vecHead, Matrix.vecMul, Matrix.dotProduct, Fin.sum_univ_one,
      Matrix.mul_apply, Matrix.smul_apply, Matrix.one_apply, Matrix.of_apply,
      Matrix.cons_val_zero]
    norm_num
  refine ⟨h1, h2, ?_, ?_⟩
  · intro hc
    rw [h1, h2] at hc
    have h3 := congrArg GaussianStateUpdate.state_vector (Except.ok.inj hc)
    have h4 := congrFun (congrFun h3 0) 0
    simp [Matrix.of_apply, Matrix.cons_val_zero] at h4
    norm_num at h4
  · simp [KalmanUpdater.update, KalmanUpdater.predict_measurement,
      KalmanUpdater.measurement_matrix, updateBody, predictMeasurementBody,
      resolveModel, kupdNone, hypWithA, measWithA]

/-- C5 counterexample: both updaters configured with the same default
(`mdlB`, `H = [[2]]`); the hypothesis's measurement carries the linear
model `mdlA` (`H = [[1]]`, fixed matrix exposed).  Both updates succeed,
yet the posteriors differ: the base `KalmanUpdater` draws `H` from the
default while `ExtendedKalmanUpdater` draws it from the resolved model. -/
theorem C5_counterexample_linear_model_posteriors_differ :
    eupdB.update hypWithA = .ok ⟨!![1], !![1/2], hypWithA, 7⟩ ∧
    kupdB.update hypWithA ≠ eupdB.update hypWithA := by
  have h1 : kupdB.update hypWithA = .ok ⟨!![4/5], !![1/5], hypWithA, 7⟩ := by
    simp [KalmanUpdater.update, KalmanUpdater.predict_measurement,
      KalmanUpdater.measurement_matrix, updateBody, predictMeasurementBody,
      resolveModel, npLinalgInv, invMat, kupdB, mdlA, mdlB, hypWithA, stateP,
      measWithA, LinearGaussian, Matrix.det_fin_one, Matrix.adjugate_fin_one,
      Matrix.vecHead, Matrix.vecMul, Matrix.dotProduct, Fin.sum_univ_one,
      Matrix.mul_apply, Matrix.smul_apply, Matrix.one_apply, Matrix.of_apply,
      Matrix.cons_val_zero]
    norm_num
  have h2 : eupdB.update hypWithA = .ok ⟨!![1], !![1/2], hypWithA, 7⟩ := by
    simp [ExtendedKalmanUpdater.update, ExtendedKalmanUpdater.predict_measurement,
      ExtendedKalmanUpdater.measurement_matrix, updateBody, predictMeasurementBody,
      resolveModel, npLinalgInv, invMat, eupdB, mdlA, mdlB, hypWithA, stateP,
      measWithA, LinearGaussian, Matrix.det_fin_one, Matrix.adjugate_fin_one,
      Matrix.vecHead, Matrix.vecMul, Matrix.dotProduct, Fin.sum_univ_one,
      Matrix.mul_apply, Matrix.smul_apply, Matrix.one_apply, Matrix.of_apply,
      Matrix.cons_val_zero]
    norm_num
  refine ⟨h2, ?_⟩
  intro hc
  rw [h1, h2] at hc
  have h3 := congrArg GaussianStateUpdate.state_vector (Except.ok.inj hc)
  have h4 := congrFun (congrFun h3 0) 0
  simp [Matrix.of_apply, Matrix.cons_val_zero] at h4
  norm_num at h4

/-- C5 (amended): when the resolved model's observation matrix coincides
with the configured default model's matrix — in particular whenever the
measurement carries no model, so both updaters fall back to the same
default — `KalmanUpdater.update` and `ExtendedKalmanUpdater.update`
return identical results. -/
theorem C5_amended_same_matrix_identical_posteriors {n m : ℕ}
    (d mdl : MeasurementModel n m) (M : Mat m n)
    (hd : d.matrix = some M) (hm : mdl.matrix = some M)
    (h : Hypothesis n m)
    (hres : resolveModel (some d) h.measurement.measurement_model = some mdl) :
    KalmanUpdater.update ⟨some d⟩ h = ExtendedKalmanUpdater.update ⟨some d⟩ h := by
  have hpm : ∀ ps : GaussianState n,
      KalmanUpdater.predict_measurement ⟨some d⟩ ps (some mdl) =
      ExtendedKalmanUpdater.predict_measurement ⟨some d⟩ ps (some mdl) := by
    intro ps
    simp [KalmanUpdater.predict_measurement, ExtendedKalmanUpdater.predict_measurement,
      predictMeasurementBody, KalmanUpdater.measurement_matrix,
      ExtendedKalmanUpdater.measurement_matrix, resolveModel, hd, hm]
  simp only [KalmanUpdater.update, ExtendedKalmanUpdater.update, updateBody,
    hres, hpm]

/-- Witness for the amended C5: same default model, measurement carries
no model; both updaters produce the same posterior. -/
theorem C5_amended_witness :
    KalmanUpdater.update ⟨some mdlA⟩ hypNoModel =
    ExtendedKalmanUpdater.update ⟨some mdlA⟩ hypNoModel :=
  C5_amended_same_matrix_identical_posteriors mdlA mdlA !![1] rfl rfl
    hypNoModel rfl

/-- C3: whenever `update` reaches the posterior computation (model
resolvable, measurement prediction obtained, innovation covariance `S`
invertible), the returned state update has
mean `x + K·(z − ẑ)` with `K = Pxz·S⁻¹`, covariance `P − K·S·Kᵀ`, the
timestamp of the hypothesis's measurement, and a back-reference to the
original hypothesis. -/
theorem C3_update_posterior_formulas {n m : ℕ} (u : KalmanUpdater n m)
    (h : Hypothesis n m) (gmp : GaussianMeasurementPrediction n m)
    (hgmp : u.predict_measurement h.prediction
      (resolveModel u.measurement_model h.measurement.measurement_model) = .ok gmp)
    (hdet : gmp.covar.det ≠ 0) :
    u.update h = .ok
      ⟨h.prediction.state_vector +
          (gmp.cross_covar * (gmp.covar)⁻¹) *
            (h.measurement.state_vector - gmp.state_vector),
        h.prediction.covar -
          (gmp.cross_covar * (gmp.covar)⁻¹) * gmp.covar *
            (gmp.cross_covar * (gmp.covar)⁻¹).transpose,
        h, h.measurement.timestamp⟩ := by
  simp only [KalmanUpdater.update, updateBody]
  rw [hgmp]
  simp [npLinalgInv, hdet, invMat_eq_inv]

set_option maxHeartbeats 1000000 in
/-- Witness for C3 on the concrete scenario of the spec. -/
theorem C3_witness :
    kupdA.predict_measurement hypNoModel.prediction
      (resolveModel kupdA.measurement_model hypNoModel.measurement.measurement_model) =
      .ok ⟨!![0], !![2], 5, !![1]⟩ ∧
    ((⟨!![0], !![2], 5, !![1]⟩ : GaussianMeasurementPrediction 1 1).covar.det ≠ 0) ∧
    kupdA.update hypNoModel = .ok
      ⟨hypNoModel.prediction.state_vector +
          (!![1] * ((!![2] : Mat 1 1))⁻¹) * (hypNoModel.measurement.state_vector - !![0]),
        hypNoModel.prediction.covar -
          (!![1] * ((!![2] : Mat 1 1))⁻¹) * !![2] *
            (!![1] * ((!![2] : Mat 1 1))⁻¹).transpose,
        hypNoModel, hypNoModel.measurement.timestamp⟩ := by
  have h1 : kupdA.predict_measurement hypNoModel.prediction
      (resolveModel kupdA.measurement_model hypNoModel.measurement.measurement_model) =
      .ok ⟨!![0], !![2], 5, !![1]⟩ := by
    simp [KalmanUpdater.predict_measurement, KalmanUpdater.measurement_matrix,
      predictMeasurementBody, resolveModel, kupdA, mdlA, hypNoModel, stateP,
      measNoModel, LinearGaussian, Matrix.vecHead, Matrix.vecMul,
      Matrix.dotProduct, Fin.sum_univ_one, Matrix.mul_apply, Matrix.smul_apply,
      Matrix.one_apply, Matrix.of_apply, Matrix.cons_val_zero]
    refine ⟨?_, ?_⟩ <;> funext i j <;> fin_cases i <;> fin_cases j <;>
      simp [Matrix.cons_val_zero] <;> norm_num
  have h2 : ((⟨!![0], !![2], 5, !![1]⟩ :
      GaussianMeasurementPrediction 1 1).covar.det ≠ 0) := by
    simp [Matrix.det_fin_one, Matrix.of_apply, Matrix.cons_val_zero]
  exact ⟨h1, h2, C3_update_posterior_formulas kupdA hypNoModel _ h1 h2⟩

/-- C4: whenever the base `KalmanUpdater.predict_measurement` succeeds,
the returned prediction has mean `model.function(state mean, zero
noise)`, innovation covariance `S = H·P·Hᵀ + R` with `H` the matrix
produced by `measurement_matrix` and `R` the resolved model's noise
covariance, cross-covariance `P·Hᵀ`, and the predicted state's
timestamp. -/
theorem C4_predict_measurement_formulas {n m : ℕ} (u : KalmanUpdater n m)
    (ps : GaussianState n) (mm : Option (MeasurementModel n m))
    (mdl : MeasurementModel n m)
    (hres : resolveModel u.measurement_model mm = some mdl)
    (gmp : GaussianMeasurementPrediction n m)
    (hok : u.predict_measurement ps mm = .ok gmp) :
    ∃ H : Mat m n, u.measurement_matrix (some ps) (some mdl) = .ok H ∧
      gmp.state_vector = mdl.function ps.state_vector 0 ∧
      gmp.covar = H * ps.covar * H.transpose + mdl.covar ∧
      gmp.cross_covar = ps.covar * H.transpose ∧
      gmp.timestamp = ps.timestamp := by
  simp only [KalmanUpdater.predict_measurement, predictMeasurementBody, hres] at hok
  cases hmm : u.measurement_matrix (some ps) (some mdl) with
  | error e =>
    rw [hmm] at hok
    exact absurd hok (by simp)
  | ok H =>
    rw [hmm] at hok
    have hg := (Except.ok.inj hok).symm
    subst hg
    exact ⟨H, rfl, rfl, rfl, rfl, rfl⟩

/-- Witness for C4 on the concrete scenario of the spec. -/
theorem C4_witness :
    ∃ H : Mat 1 1, kupdA.measurement_matrix (some stateP) (some mdlA) = .ok H ∧
      (⟨!![0], !![2], 5, !![1]⟩ :
        GaussianMeasurementPrediction 1 1).state_vector =
          mdlA.function stateP.state_vector 0 ∧
      (⟨!![0], !![2], 5, !![1]⟩ :
        GaussianMeasurementPrediction 1 1).covar =
          H * stateP.covar * H.transpose + mdlA.covar ∧
      (⟨!![0], !![2], 5, !![1]⟩ :
        GaussianMeasurementPrediction 1 1).cross_covar =
          stateP.covar * H.transpose ∧
      (⟨!![0], !![2], 5, !![1]⟩ :
        GaussianMeasurementPrediction 1 1).timestamp = stateP.timestamp := by
  have hok : kupdA.predict_measurement stateP none = .ok ⟨!![0], !![2], 5, !![1]⟩ := by
    simp [KalmanUpdater.predict_measurement, KalmanUpdater.measurement_matrix,
      predictMeasurementBody, resolveModel, kupdA, mdlA, stateP, LinearGaussian,
      Matrix.vecHead, Matrix.vecMul, Matrix.dotProduct, Fin.sum_univ_one,
      Matrix.mul_apply, Matrix.smul_apply, Matrix.one_apply, Matrix.of_apply,
      Matrix.cons_val_zero]
    refine ⟨?_, ?_⟩ <;> funext i j <;> fin_cases i <;> fin_cases j <;>
      simp [Matrix.cons_val_zero] <;> norm_num
  exact C4_predict_measurement_formulas kupdA stateP none mdlA rfl _ hok

/-- C7: whenever `update` obtains a measurement prediction whose
innovation covariance is singular, `np.linalg.inv` raises the
singular-matrix error and `update` surfaces it to the caller. -/
theorem C7_singular_innovation_raises {n m : ℕ} (u : KalmanUpdater n m)
    (h : Hypothesis n m) (gmp : GaussianMeasurementPrediction n m)
    (hgmp : u.predict_measurement h.prediction
      (resolveModel u.measurement_model h.measurement.measurement_model) = .ok gmp)
    (hsing : gmp.covar.det = 0) :
    u.update h = .error .singularMatrix := by
  simp only [KalmanUpdater.update, updateBody]
  rw [hgmp]
  simp [npLinalgInv, hsing]

/-- Witness for C7: the model `H = [[0]]`, `R = [[0]]` makes `S = [[0]]`
singular. -/
theorem C7_witness :
    kupdZero.predict_measurement hypNoModel.prediction
      (resolveModel kupdZero.measurement_model hypNoModel.measurement.measurement_model) =
      .ok ⟨!![0], !![0], 5, !![0]⟩ ∧
    ((⟨!![0], !![0], 5, !![0]⟩ :
      GaussianMeasurementPrediction 1 1).covar.det = 0) ∧
    kupdZero.update hypNoModel = .error .singularMatrix := by
  have h1 : kupdZero.predict_measurement hypNoModel.prediction
      (resolveModel kupdZero.measurement_model hypNoModel.measurement.measurement_model) =
      .ok ⟨!![0], !![0], 5, !![0]⟩ := by
    simp [KalmanUpdater.predict_measurement, KalmanUpdater.measurement_matrix,
      predictMeasurementBody, resolveModel, kupdZero, mdlZero, hypNoModel,
      stateP, measNoModel, LinearGaussian, Matrix.vecHead, Matrix.vecMul,
      Matrix.dotProduct, Fin.sum_univ_one, Matrix.mul_apply, Matrix.smul_apply,
      Matrix.one_apply, Matrix.of_apply, Matrix.cons_val_zero]
    refine ⟨?_, ?_⟩ <;> funext i j <;> fin_cases i <;> fin_cases j <;>
      simp [Matrix.cons_val_zero] <;> norm_num
  have h2 : ((⟨!![0], !![0], 5, !![0]⟩ :
      GaussianMeasurementPrediction 1 1).covar.det = 0) := by
    simp [Matrix.det_fin_one, Matrix.of_apply, Matrix.cons_val_zero]
  exact ⟨h1, h2, C7_singular_innovation_raises kupdZero hypNoModel _ h1 h2⟩

/-- C6: `KalmanUpdater.measurement_matrix` ignores both of its arguments
— its value depends only on the updater's configured default model.
Consequently, when `predict_measurement` is supplied an explicit model
`mdl` while the default `d` (with matrix `Hd`) is configured, the
returned prediction takes its mean and noise covariance from `mdl` but
its observation matrix from `Hd`; and when no default is configured the
call fails with `AttributeError` even though a model was supplied. -/
theorem C6_measurement_matrix_ignores_arguments {n m : ℕ} (u : KalmanUpdater n m) :
    (∀ (ps ps' : Option (GaussianState n)) (mm mm' : Option (MeasurementModel n m)),
      u.measurement_matrix ps mm = u.measurement_matrix ps' mm') ∧
    (∀ d : MeasurementModel n m, u.measurement_model = some d →
      ∀ Hd : Mat m n, d.matrix = some Hd →
      ∀ (ps : GaussianState n) (mdl : MeasurementModel n m)
        (gmp : GaussianMeasurementPrediction n m),
        u.predict_measurement ps (some mdl) = .ok gmp →
          gmp.state_vector = mdl.function ps.state_vector 0 ∧
          gmp.covar = Hd * ps.covar * Hd.transpose + mdl.covar ∧
          gmp.cross_covar = ps.covar * Hd.transpose) ∧
    (u.measurement_model = none →
      ∀ (ps : GaussianState n) (mdl : MeasurementModel n m),
        u.predict_measurement ps (some mdl) = .error .attributeError) := by
  refine ⟨fun ps ps' mm mm' => rfl, ?_, ?_⟩
  · intro d hd Hd hHd ps mdl gmp hok
    simp only [KalmanUpdater.predict_measurement, predictMeasurementBody,
      resolveModel, KalmanUpdater.measurement_matrix, hd, hHd] at hok
    have hg := (Except.ok.inj hok).symm
    subst hg
    exact ⟨rfl, rfl, rfl⟩
  · intro hnone ps mdl
    simp [KalmanUpdater.predict_measurement, predictMeasurementBody,
      resolveModel, KalmanUpdater.measurement_matrix, hnone]

/-- Witness for C6: with default `mdlB` (`H = [[2]]`) and supplied model
`mdlA` (`H = [[1]]`, `R = [[1]]`), the prediction uses `H = [[2]]`; with
no default, the supplied model does not prevent the failure. -/
theorem C6_witness :
    kupdB.measurement_matrix none none =
      kupdB.measurement_matrix (some stateP) (some mdlA) ∧
    kupdB.predict_measurement stateP (some mdlA) =
      .ok ⟨!![0], !![5], 5, !![2]⟩ ∧
    (⟨!![0], !![5], 5, !![2]⟩ :
        GaussianMeasurementPrediction 1 1).covar =
      !![2] * stateP.covar * (!![2] : Mat 1 1).transpose + mdlA.covar ∧
    kupdNone.predict_measurement stateP (some mdlA) = .error .attributeError := by
  have hok : kupdB.predict_measurement stateP (some mdlA) =
      .ok ⟨!![0], !![5], 5, !![2]⟩ := by
    simp [KalmanUpdater.predict_measurement, KalmanUpdater.measurement_matrix,
      predictMeasurementBody, resolveModel, kupdB, mdlA, mdlB, stateP,
      LinearGaussian, Matrix.vecHead, Matrix.vecMul, Matrix.dotProduct,
      Fin.sum_univ_one, Matrix.mul_apply, Matrix.smul_apply, Matrix.one_apply,
      Matrix.of_apply, Matrix.cons_val_zero]
    refine ⟨?_, ?_⟩ <;> funext i j <;> fin_cases i <;> fin_cases j <;>
      simp [Matrix.cons_val_zero] <;> norm_num
  refine ⟨(C6_measurement_matrix_ignores_arguments kupdB).1 none (some stateP)
      none (some mdlA), hok,
    ((C6_measurement_matrix_ignores_arguments kupdB).2.1 mdlB rfl !![2] rfl
      stateP mdlA _ hok).2.1,
    (C6_measurement_matrix_ignores_arguments kupdNone).2.2 rfl stateP mdlA⟩

/-- C9: whenever `update` succeeds and the innovation covariance is
positive definite, the trace of the posterior covariance does not exceed
the trace of the predicted state covariance. -/
theorem C9_posterior_trace_bounded {n m : ℕ} (u : KalmanUpdater n m)
    (h : Hypothesis n m) (gmp : GaussianMeasurementPrediction n m)
    (post : GaussianStateUpdate n m)
    (hgmp : u.predict_measurement h.prediction
      (resolveModel u.measurement_model h.measurement.measurement_model) = .ok gmp)
    (hpd : PosDefQ gmp.covar)
    (hok : u.update h = .ok post) :
    post.covar.trace ≤ h.prediction.covar.trace := by
  simp only [KalmanUpdater.update, updateBody] at hok
  rw [hgmp] at hok
  by_cases hdet : gmp.covar.det = 0
  · simp [npLinalgInv, hdet] at hok
  · simp only [npLinalgInv, hdet, if_false, ite_false, if_neg] at hok
    have hp := (Except.ok.inj hok).symm
    subst hp
    rw [Matrix.trace_sub]
    exact sub_le_self _
      (trace_mul_mul_transpose_nonneg (gmp.cross_covar * invMat gmp.covar)
        gmp.covar hpd)

/-- The spec's scenario innovation covariance `[[2]]` is positive
definite. -/
theorem posDefQ_two : PosDefQ (!![2] : Mat 1 1) := by
  intro x hx
  have hx0 : x 0 ≠ 0 := by
    intro h0
    apply hx
    funext i
    fin_cases i
    exact h0
  have hq : Matrix.dotProduct x ((!![2] : Mat 1 1).mulVec x) = 2 * (x 0 * x 0) := by
    simp [Matrix.dotProduct, Matrix.mulVec, Fin.sum_univ_one, Matrix.of_apply,
      Matrix.cons_val_zero]
    ring
  rw [hq]
  have hs := mul_self_pos.mpr hx0
  linarith

/-- Witness for C9 on the concrete scenario: posterior trace `1/2` does
not exceed predicted trace `1`. -/
theorem C9_witness :
    PosDefQ ((⟨!![0], !![2], 5, !![1]⟩ :
      GaussianMeasurementPrediction 1 1).covar) ∧
    ((⟨!![1], !![1/2], hypNoModel, 7⟩ :
      GaussianStateUpdate 1 1).covar.trace ≤ hypNoModel.prediction.covar.trace) := by
  have h1 : kupdA.predict_measurement hypNoModel.prediction
      (resolveModel kupdA.measurement_model hypNoModel.measurement.measurement_model) =
      .ok ⟨!![0], !![2], 5, !![1]⟩ := by
    simp [KalmanUpdater.predict_measurement, KalmanUpdater.measurement_matrix,
      predictMeasurementBody, resolveModel, kupdA, mdlA, hypNoModel, stateP,
      measNoModel, LinearGaussian, Matrix.vecHead, Matrix.vecMul,
      Matrix.dotProduct, Fin.sum_univ_one, Matrix.mul_apply, Matrix.smul_apply,
      Matrix.one_apply, Matrix.of_apply, Matrix.cons_val_zero]
    refine ⟨?_, ?_⟩ <;> funext i j <;> fin_cases i <;> fin_cases j <;>
      simp [Matrix.cons_val_zero] <;> norm_num
  have hok : kupdA.update hypNoModel = .ok ⟨!![1], !![1/2], hypNoModel, 7⟩ := by
    simp [KalmanUpdater.update, KalmanUpdater.predict_measurement,
      KalmanUpdater.measurement_matrix, updateBody, predictMeasurementBody,
      resolveModel, npLinalgInv, invMat, kupdA, mdlA, hypNoModel, stateP,
      measNoModel, LinearGaussian, Matrix.det_fin_one, Matrix.adjugate_fin_one,
      Matrix.vecHead, Matrix.vecMul, Matrix.dotProduct, Fin.sum_univ_one,
      Matrix.mul_apply, Matrix.smul_apply, Matrix.one_apply, Matrix.of_apply,
      Matrix.cons_val_zero]
    norm_num
  exact ⟨posDefQ_two,
    C9_posterior_trace_bounded kupdA hypNoModel _ _ h1 posDefQ_two hok⟩

/-- Any matrix of the shape `K·S·Kᵀ` with `S` symmetric is symmetric. -/
theorem isSymm_mul_mul_transpose {n m : ℕ} (K : Mat n m) {S : Mat m m}
    (hS : S.IsSymm) : (K * S * K.transpose).IsSymm := by
  unfold Matrix.IsSymm at *
  rw [Matrix.transpose_mul, Matrix.transpose_mul, Matrix.transpose_transpose,
    hS, Matrix.mul_assoc]

/-- C10: whenever `update` succeeds with a symmetric predicted
covariance and a symmetric innovation covariance, the posterior
covariance is symmetric (exactly, in rational arithmetic). -/
theorem C10_posterior_covariance_symmetric {n m : ℕ} (u : KalmanUpdater n m)
    (h : Hypothesis n m) (gmp : GaussianMeasurementPrediction n m)
    (post : GaussianStateUpdate n m)
    (hgmp : u.predict_measurement h.prediction
      (resolveModel u.measurement_model h.measurement.measurement_model) = .ok gmp)
    (hP : h.prediction.covar.IsSymm) (hS : gmp.covar.IsSymm)
    (hok : u.update h = .ok post) :
    post.covar.IsSymm := by
  simp only [KalmanUpdater.update, updateBody] at hok
  rw [hgmp] at hok
  by_cases hdet : gmp.covar.det = 0
  · simp [npLinalgInv, hdet] at hok
  · simp only [npLinalgInv, hdet, if_false, ite_false, if_neg] at hok
    have hp := (Except.ok.inj hok).symm
    subst hp
    have hK := isSymm_mul_mul_transpose (gmp.cross_covar * invMat gmp.covar) hS
    unfold Matrix.IsSymm at *
    rw [Matrix.transpose_sub, hP, hK]

/-- Witness for C10 on the concrete scenario: the posterior covariance
`[[1/2]]` is symmetric. -/
theorem C10_witness :
    hypNoModel.prediction.covar.IsSymm ∧
    ((⟨!![0], !![2], 5, !![1]⟩ :
      GaussianMeasurementPrediction 1 1).covar.IsSymm) ∧
    ((⟨!![1], !![1/2], hypNoModel, 7⟩ :
      GaussianStateUpdate 1 1).covar.IsSymm) := by
  have h1 : kupdA.predict_measurement hypNoModel.prediction
      (resolveModel kupdA.measurement_model hypNoModel.measurement.measurement_model) =
      .ok ⟨!![0], !![2], 5, !![1]⟩ := by
    simp [KalmanUpdater.predict_measurement, KalmanUpdater.measurement_matrix,
      predictMeasurementBody, resolveModel, kupdA, mdlA, hypNoModel, stateP,
      measNoModel, LinearGaussian, Matrix.vecHead, Matrix.vecMul,
      Matrix.dotProduct, Fin.sum_univ_one, Matrix.mul_apply, Matrix.smul_apply,
      Matrix.one_apply, Matrix.of_apply, Matrix.cons_val_zero]
    refine ⟨?_, ?_⟩ <;> funext i j <;> fin_cases i <;> fin_cases j <;>
      simp [Matrix.cons_val_zero] <;> norm_num
  have hok : kupdA.update hypNoModel = .ok ⟨!![1], !![1/2], hypNoModel, 7⟩ := by
    simp [KalmanUpdater.update, KalmanUpdater.predict_measurement,
      KalmanUpdater.measurement_matrix, updateBody, predictMeasurementBody,
      resolveModel, npLinalgInv, invMat, kupdA, mdlA, hypNoModel, stateP,
      measNoModel, LinearGaussian, Matrix.det_fin_one, Matrix.adjugate_fin_one,
      Matrix.vecHead, Matrix.vecMul, Matrix.dotProduct, Fin.sum_univ_one,
      Matrix.mul_apply, Matrix.smul_apply, Matrix.one_apply, Matrix.of_apply,
      Matrix.cons_val_zero]
    norm_num
  have hP : hypNoModel.prediction.covar.IsSymm := by
    unfold Matrix.IsSymm
    funext i j
    fin_cases i; fin_cases j
    rfl
  have hS : ((⟨!![0], !![2], 5, !![1]⟩ :
      GaussianMeasurementPrediction 1 1).covar.IsSymm) := by
    unfold Matrix.IsSymm
    funext i j
    fin_cases i; fin_cases j
    rfl
  exact ⟨hP, hS,
    C10_posterior_covariance_symmetric kupdA hypNoModel _ _ h1 hP hS hok⟩
